import Mathlib

/-!
Shallow embedding of the conversation controller of `src/src/components/ChatInterface.tsx`:
the message data model, the load flow (`loadMessages`), the send flow (`sendMessage` with
`saveMessage` modelled as a store oracle), and the canned response generator
(`generateAIResponse`).  Store calls are modelled by explicit oracle arguments; the
random index of the response generator is an explicit argument; UI state (`messages`,
`input`, `loading`, `loadingMessages`) and the error-toast count live in `ChatState`.
-/

namespace Chat

/-- The `role` column of a message row: `'user' | 'assistant'`. -/
inductive Role where
  | user
  | assistant
deriving DecidableEq, Repr

/-- A store-confirmed message row.  The TypeScript `Message` interface has
`id`, `role`, `content`, `created_at`; the inserted row also carries `user_id`
(the foreign association used by the store).  Timestamps are modelled as `Nat`. -/
structure Message where
  id : String
  role : Role
  content : String
  created_at : Nat
  user_id : String
deriving DecidableEq, Repr

/-- The component state of `ChatInterface`: the in-memory message sequence, the
input field, the "sending" flag (`loading`), the initial-load flag
(`loadingMessages`), and a count of destructive error toasts surfaced so far. -/
structure ChatState where
  messages : List Message
  input : String
  loading : Bool
  loadingMessages : Bool
  toasts : Nat
deriving DecidableEq, Repr

/-- The component's initial state: `useState<Message[]>([])`, `useState('')`,
`useState(false)`, `useState(true)`, and no toasts yet. -/
def initialState : ChatState :=
  { messages := [], input := "", loading := false, loadingMessages := true, toasts := 0 }

/-- Model of JavaScript `String.prototype.trim`: strip leading and trailing
whitespace characters. -/
def trim (s : String) : String :=
  String.mk (((s.data.dropWhile Char.isWhitespace).reverse.dropWhile Char.isWhitespace).reverse)

/-- Model of JavaScript `String.prototype.toLowerCase` (character-wise lowering). -/
def toLower (s : String) : String :=
  String.mk (s.data.map Char.toLower)

/-- Model of JavaScript `String.prototype.includes`: substring containment. -/
def includes (s pat : String) : Bool :=
  decide (pat.data <:+: s.data)

/-- The fixed list of generic opener phrases (`responses` in `generateAIResponse`). -/
def responses : List String :=
  ["That\x27s an interesting question! Let me think about that...",
   "I understand what you\x27re asking. Here\x27s my perspective on that:",
   "Great question! Based on what you\x27ve shared, I would suggest:",
   "That\x27s a thoughtful inquiry. Let me provide some insights:",
   "I appreciate you asking that. Here\x27s what I think:"]

/-- The fixed greeting reply returned for inputs containing "hello" or "hi". -/
def greetingReply : String :=
  "Hello! I\x27m your AI assistant. How can I help you today?"

/-- The fixed reply for inputs containing "how are you". -/
def howAreYouReply : String :=
  "I\x27m doing well, thank you for asking! I\x27m here and ready to help with any questions or tasks you have."

/-- The fixed reply for inputs containing "what can you do". -/
def capabilitiesReply : String :=
  "I can help you with a wide variety of tasks including answering questions, providing explanations, helping with creative writing, solving problems, and having conversations on many topics. What would you like to explore?"

/-- The trailing clause appended for inputs longer than 50 characters. -/
def detailedClause : String :=
  "You\x27ve shared quite a detailed message, and I appreciate the context."

/-- The trailing clause appended for inputs of length at most 50. -/
def shortClause : String :=
  "Thanks for sharing that with me."

/-- `generateAIResponse` from the source, with `Math.floor(Math.random() * responses.length)`
modelled by the explicit argument `randIdx % responses.length` (always in range, as in the
source).  The trigger checks are early returns in the source; `if`/`else` chains are the
same thing here since each branch returns. -/
def generateAIResponse (randIdx : Nat) (userMessage : String) : String :=
  let randomResponse := responses.getD (randIdx % responses.length) ""
  let lower := toLower userMessage
  if includes lower "hello" || includes lower "hi" then
    greetingReply
  else if includes lower "how are you" then
    howAreYouReply
  else if includes lower "what can you do" then
    capabilitiesReply
  else
    randomResponse ++ " " ++
      (if userMessage.length > 50 then detailedClause else shortClause)

/-- Ordering of messages by creation timestamp (the store's `order('created_at',
ascending: true)` key). -/
def byCreatedAt (a b : Message) : Prop :=
  a.created_at ≤ b.created_at

instance : DecidableRel byCreatedAt :=
  fun a b => Nat.decLe a.created_at b.created_at

instance : IsTotal Message byCreatedAt :=
  ⟨fun a b => Nat.le_total a.created_at b.created_at⟩

instance : IsTrans Message byCreatedAt :=
  ⟨fun _ _ _ hab hbc => Nat.le_trans hab hbc⟩

/-- Modelled from the spec: the persistent store collaborator's
`list_messages(user) -> ordered sequence of Message, ascending by creation time`.
The row restriction to the requesting user (a row-level policy of the external
store, not under `src/`) and the `order('created_at', { ascending: true })`
clause of the query in `loadMessages` are modelled as a filter on `user_id`
followed by a stable sort on `created_at`. -/
def list_messages (store : List Message) (uid : String) : List Message :=
  List.insertionSort byCreatedAt (store.filter (fun m => m.user_id == uid))

/-- Outcome of the store query issued by `loadMessages`: an error, or data
(possibly absent, covered by `data || []` in the source). -/
inductive LoadResult where
  | err
  | ok (data : Option (List Message))

/-- `loadMessages` from the source: on success replace `messages` with `data || []`;
on error surface a destructive toast; in both cases (`finally`) clear
`loadingMessages`. -/
def loadMessages (st : ChatState) (r : LoadResult) : ChatState :=
  match r with
  | LoadResult.err =>
      { st with toasts := st.toasts + 1, loadingMessages := false }
  | LoadResult.ok data =>
      { st with messages := data.getD [], loadingMessages := false }

/-- `sendMessage` from the source.  The store's two `insert` round trips
(`saveMessage`) are modelled by the oracle `store : Role → String → Option Message`
(`none` is a thrown store error).  Returns the new state together with the list of
insert requests actually issued to the store, in order.
Control flow: the guard `if (!input.trim() || loading) return`; then the input is
cleared and `loading` set; then user insert, append, response generation, assistant
insert, append; `catch` adds a toast; `finally` clears `loading`. -/
def sendMessage (st : ChatState) (store : Role → String → Option Message) (r : Nat) :
    ChatState × List (Role × String) :=
  if trim st.input = "" ∨ st.loading = true then
    (st, [])
  else
    let userMessage := trim st.input
    let st1 := { st with input := "", loading := true }
    match store Role.user userMessage with
    | none =>
        ({ st1 with toasts := st1.toasts + 1, loading := false },
         [(Role.user, userMessage)])
    | some userMsg =>
        let st2 := { st1 with messages := st1.messages ++ [userMsg] }
        let aiResponse := generateAIResponse r userMessage
        match store Role.assistant aiResponse with
        | none =>
            ({ st2 with toasts := st2.toasts + 1, loading := false },
             [(Role.user, userMessage), (Role.assistant, aiResponse)])
        | some assistantMsg =>
            ({ st2 with messages := st2.messages ++ [assistantMsg], loading := false },
             [(Role.user, userMessage), (Role.assistant, aiResponse)])


/-- A chat state with an empty sequence, the given input text and sending flag. -/
def stWith (inp : String) (ld : Bool) : ChatState :=
  { messages := [], input := inp, loading := ld, loadingMessages := false, toasts := 0 }

/-- A store oracle whose insertions always succeed. -/
def okStore : Role → String → Option Message :=
  fun ro c => some { id := "m", role := ro, content := c, created_at := 0, user_id := "u" }

/-- A store oracle whose insertions always fail. -/
def failStore : Role → String → Option Message :=
  fun _ _ => none

/-- A store oracle that accepts user rows and rejects assistant rows. -/
def userOnlyStore : Role → String → Option Message :=
  fun ro c =>
    if ro = Role.user then
      some { id := "m1", role := ro, content := c, created_at := 1, user_id := "u" }
    else none

/-- C4: sending an empty or whitespace-only input is a no-op: the state (hence the
in-memory sequence) is unchanged and no store insert requests are issued. -/
theorem sendMessage_empty_noop (st : ChatState) (store : Role → String → Option Message)
    (r : Nat) (hin : trim st.input = "") :
    sendMessage st store r = (st, []) := by
  simp [sendMessage, hin]

/-- Witness for C4: a whitespace-only input is rejected unchanged with no store calls. -/
theorem sendMessage_empty_noop_witness :
    trim "   " = "" ∧ sendMessage (stWith "   " false) failStore 0 = (stWith "   " false, []) :=
  ⟨by decide, sendMessage_empty_noop (stWith "   " false) failStore 0 (by decide)⟩

/-- C5: a send request arriving while a prior send is in flight (`loading = true`) is
dropped: the state (sequence and input field included) is unchanged and no store
insert requests are issued. -/
theorem sendMessage_inflight_noop (st : ChatState) (store : Role → String → Option Message)
    (r : Nat) (hl : st.loading = true) :
    sendMessage st store r = (st, []) := by
  simp [sendMessage, hl]

/-- Witness for C5: a send arriving while one is outstanding is a no-op. -/
theorem sendMessage_inflight_noop_witness :
    (stWith "hello" true).loading = true ∧
    sendMessage (stWith "hello" true) failStore 0 = (stWith "hello" true, []) :=
  ⟨rfl, sendMessage_inflight_noop (stWith "hello" true) failStore 0 rfl⟩

/-- C10: for every non-rejected send, the input field of the resulting state is empty,
for every store oracle — on success and on either insertion failing alike, the input
is cleared and never restored. -/
theorem sendMessage_input_cleared (st : ChatState) (store : Role → String → Option Message)
    (r : Nat) (hin : trim st.input ≠ "") (hl : st.loading = false) :
    (sendMessage st store r).1.input = "" := by
  rcases h1 : store Role.user (trim st.input) with _ | um
  · simp [sendMessage, hin, hl, h1]
  · rcases h2 : store Role.assistant (generateAIResponse r (trim st.input)) with _ | am
    · simp [sendMessage, hin, hl, h1, h2]
    · simp [sendMessage, hin, hl, h1, h2]

/-- Witness for C10: with a store that fails the first insertion, the input field
still ends up empty. -/
theorem sendMessage_input_cleared_witness :
    trim "yo" ≠ "" ∧ (sendMessage (stWith "yo" false) failStore 0).1.input = "" :=
  ⟨by decide, sendMessage_input_cleared (stWith "yo" false) failStore 0 (by decide) rfl⟩

/-- C1: for a non-empty trimmed input with no send in flight, when both store
insertions succeed, the send flow appends exactly the two store-confirmed messages to
the in-memory sequence, user first, assistant second, and exits the sending state. -/
theorem sendMessage_success (st : ChatState) (store : Role → String → Option Message)
    (r : Nat) (um am : Message)
    (hin : trim st.input ≠ "") (hl : st.loading = false)
    (hu : store Role.user (trim st.input) = some um)
    (ha : store Role.assistant (generateAIResponse r (trim st.input)) = some am) :
    (sendMessage st store r).1.messages = st.messages ++ [um, am] ∧
    (sendMessage st store r).1.loading = false := by
  simp [sendMessage, hin, hl, hu, ha]

/-- Witness for C1: a successful send of "Hello there" from the empty sequence yields
exactly the two store-confirmed rows, user then assistant. -/
theorem sendMessage_success_witness :
    trim "Hello there" ≠ "" ∧
    ((sendMessage (stWith "Hello there" false) okStore 0).1.messages =
      [{ id := "m", role := Role.user, content := trim "Hello there", created_at := 0,
         user_id := "u" },
       { id := "m", role := Role.assistant,
         content := generateAIResponse 0 (trim "Hello there"), created_at := 0,
         user_id := "u" }] ∧
     (sendMessage (stWith "Hello there" false) okStore 0).1.loading = false) :=
  ⟨by decide,
   sendMessage_success (stWith "Hello there" false) okStore 0
     { id := "m", role := Role.user, content := trim "Hello there", created_at := 0,
       user_id := "u" }
     { id := "m", role := Role.assistant,
       content := generateAIResponse 0 (trim "Hello there"), created_at := 0,
       user_id := "u" }
     (by decide) rfl rfl rfl⟩

/-- C3: if either store insertion during a non-rejected send fails, the remaining
steps are aborted, one failure toast is surfaced, and the sending state is exited;
when the user insertion succeeded and the assistant insertion fails, the sequence
gains exactly the user message with no paired reply, with no rollback. -/
theorem sendMessage_failure (st : ChatState) (store : Role → String → Option Message)
    (r : Nat) (hin : trim st.input ≠ "") (hl : st.loading = false) :
    (store Role.user (trim st.input) = none →
      (sendMessage st store r).1.messages = st.messages ∧
      (sendMessage st store r).1.loading = false ∧
      (sendMessage st store r).1.toasts = st.toasts + 1 ∧
      (sendMessage st store r).2 = [(Role.user, trim st.input)]) ∧
    (∀ um : Message, store Role.user (trim st.input) = some um →
      store Role.assistant (generateAIResponse r (trim st.input)) = none →
      (sendMessage st store r).1.messages = st.messages ++ [um] ∧
      (sendMessage st store r).1.loading = false ∧
      (sendMessage st store r).1.toasts = st.toasts + 1) := by
  constructor
  · intro hu
    simp [sendMessage, hin, hl, hu]
  · intro um hu ha
    simp [sendMessage, hin, hl, hu, ha]

/-- Witness for C3: user insertion succeeds, assistant insertion fails — the final
sequence holds exactly the user message, a toast is raised, sending is cleared. -/
theorem sendMessage_failure_witness :
    trim " hey " ≠ "" ∧
    ((sendMessage (stWith " hey " false) userOnlyStore 0).1.messages =
      [{ id := "m1", role := Role.user, content := trim " hey ", created_at := 1,
         user_id := "u" }] ∧
     (sendMessage (stWith " hey " false) userOnlyStore 0).1.loading = false ∧
     (sendMessage (stWith " hey " false) userOnlyStore 0).1.toasts = 0 + 1) :=
  ⟨by decide,
   (sendMessage_failure (stWith " hey " false) userOnlyStore 0 (by decide) rfl).2
     { id := "m1", role := Role.user, content := trim " hey ", created_at := 1,
       user_id := "u" }
     rfl rfl⟩

/-- Three store rows for two users, out of timestamp order. -/
def demoRows : List Message :=
  [{ id := "a", role := Role.user, content := "x", created_at := 2, user_id := "u" },
   { id := "b", role := Role.assistant, content := "y", created_at := 1, user_id := "v" },
   { id := "c", role := Role.assistant, content := "z", created_at := 1, user_id := "u" }]

/-- C2: loading replaces the in-memory sequence with exactly the store rows of the
current user (a permutation of the filter of the store by `user_id`), sorted ascending
by creation timestamp, every loaded row belongs to the current user, an empty result
for the user yields an empty sequence, no error toast is raised, and the loading state
is exited. -/
theorem loadMessages_user_records (st : ChatState) (store : List Message) (uid : String) :
    List.Perm (loadMessages st (LoadResult.ok (some (list_messages store uid)))).messages
        (store.filter (fun m => m.user_id == uid)) ∧
    List.Sorted byCreatedAt
        (loadMessages st (LoadResult.ok (some (list_messages store uid)))).messages ∧
    (∀ m ∈ (loadMessages st (LoadResult.ok (some (list_messages store uid)))).messages,
        m.user_id = uid) ∧
    (store.filter (fun m => m.user_id == uid) = [] →
      (loadMessages st (LoadResult.ok (some (list_messages store uid)))).messages = []) ∧
    (loadMessages st (LoadResult.ok (some (list_messages store uid)))).toasts = st.toasts ∧
    (loadMessages st (LoadResult.ok (some (list_messages store uid)))).loadingMessages = false := by
  have hm : (loadMessages st (LoadResult.ok (some (list_messages store uid)))).messages
      = list_messages store uid := rfl
  refine ⟨?_, ?_, ?_, ?_, rfl, rfl⟩
  · rw [hm]
    exact List.perm_insertionSort byCreatedAt (store.filter (fun m => m.user_id == uid))
  · rw [hm]
    exact List.sorted_insertionSort byCreatedAt (store.filter (fun m => m.user_id == uid))
  · rw [hm]
    intro m hmem
    have hmf : m ∈ store.filter (fun m => m.user_id == uid) :=
      (List.perm_insertionSort byCreatedAt
        (store.filter (fun m => m.user_id == uid))).mem_iff.mp hmem
    exact eq_of_beq (List.mem_filter.mp hmf).2
  · intro hf
    rw [hm]
    unfold list_messages
    rw [hf]
    rfl

/-- Witness for C2: loading three demo rows for user "u" keeps exactly the two rows of
"u", sorted by timestamp. -/
theorem loadMessages_user_records_witness :
    List.Perm (loadMessages initialState (LoadResult.ok (some (list_messages demoRows "u")))).messages
        (demoRows.filter (fun m => m.user_id == "u")) ∧
    List.Sorted byCreatedAt
        (loadMessages initialState (LoadResult.ok (some (list_messages demoRows "u")))).messages ∧
    (∀ m ∈ (loadMessages initialState (LoadResult.ok (some (list_messages demoRows "u")))).messages,
        m.user_id = "u") ∧
    (demoRows.filter (fun m => m.user_id == "u") = [] →
      (loadMessages initialState (LoadResult.ok (some (list_messages demoRows "u")))).messages = []) ∧
    (loadMessages initialState (LoadResult.ok (some (list_messages demoRows "u")))).toasts
        = initialState.toasts ∧
    (loadMessages initialState (LoadResult.ok (some (list_messages demoRows "u")))).loadingMessages
        = false :=
  loadMessages_user_records initialState demoRows "u"

/-- C6: when the store fails during the initial load (from the initial state), the
in-memory sequence is left empty, one failure toast is surfaced, and the loading
state is still exited. -/
theorem loadMessages_error_initial :
    (loadMessages initialState LoadResult.err).messages = [] ∧
    (loadMessages initialState LoadResult.err).toasts = initialState.toasts + 1 ∧
    (loadMessages initialState LoadResult.err).loadingMessages = false :=
  ⟨rfl, rfl, rfl⟩

/-- C7: any input whose lowering contains "hello" gets the fixed greeting reply, for
every random index; the generator is a total pure function, so it never fails and
performs no I/O. -/
theorem generateAIResponse_hello (r : Nat) (s : String)
    (h : "hello".data <:+: (toLower s).data) :
    generateAIResponse r s = greetingReply := by
  simp [generateAIResponse, includes, h]

/-- Witness for C7: "Oh HELLO there" gets the greeting reply. -/
theorem generateAIResponse_hello_witness :
    ("hello".data <:+: (toLower "Oh HELLO there").data) ∧
    generateAIResponse 0 "Oh HELLO there" = greetingReply :=
  ⟨by decide, generateAIResponse_hello 0 "Oh HELLO there" (by decide)⟩

/-- C9: any input whose lowering contains "hi" anywhere — also inside a word such as
"this" — gets the fixed greeting reply, for every random index, regardless of any
other trigger phrase present (the greeting check runs first). -/
theorem generateAIResponse_hi_substring (r : Nat) (s : String)
    (h : "hi".data <:+: (toLower s).data) :
    generateAIResponse r s = greetingReply := by
  simp [generateAIResponse, includes, h]

/-- Witness for C9: "This how are you?" contains "hi" inside "This" and also the
"how are you" trigger, yet gets the greeting reply. -/
theorem generateAIResponse_hi_substring_witness :
    ("hi".data <:+: (toLower "This how are you?").data) ∧
    ("how are you".data <:+: (toLower "This how are you?").data) ∧
    generateAIResponse 0 "This how are you?" = greetingReply :=
  ⟨by decide, by decide, generateAIResponse_hi_substring 0 "This how are you?" (by decide)⟩

/-- C8: for input matching no trigger phrase, the output is one of the fixed generic
opener phrases followed by the trailing clause chosen solely by input length:
the detailed-message clause for length over 50, the generic acknowledgement
clause otherwise. -/
theorem generateAIResponse_no_trigger (r : Nat) (s : String)
    (h1 : ¬ "hello".data <:+: (toLower s).data)
    (h2 : ¬ "hi".data <:+: (toLower s).data)
    (h3 : ¬ "how are you".data <:+: (toLower s).data)
    (h4 : ¬ "what can you do".data <:+: (toLower s).data) :
    ∃ resp ∈ responses,
      generateAIResponse r s =
        resp ++ " " ++ (if s.length > 50 then detailedClause else shortClause) := by
  refine ⟨responses.getD (r % responses.length) "", ?_, ?_⟩
  · have hlt : r % responses.length < responses.length := Nat.mod_lt r (by decide)
    rw [List.getD_eq_getElem responses "" hlt]
    exact List.getElem_mem hlt
  · simp [generateAIResponse, includes, h1, h2, h3, h4]

/-- Witness for C8: the short input "ok" matches no trigger and gets an opener plus
the short acknowledgement clause. -/
theorem generateAIResponse_no_trigger_witness :
    (¬ "hello".data <:+: (toLower "ok").data) ∧
    (∃ resp ∈ responses,
      generateAIResponse 3 "ok" =
        resp ++ " " ++ (if ("ok").length > 50 then detailedClause else shortClause)) :=
  ⟨by decide,
   generateAIResponse_no_trigger 3 "ok" (by decide) (by decide) (by decide) (by decide)⟩

end Chat
